import Mathlib

/-!
Shallow embedding of the retrieval core of `streamlit_app.py` (mythology
story search): metadata records, the ranked-then-filtered query pipeline,
the pagination arithmetic, and the per-session pagination state machine.

Similarity scores are never inspected by the filtering or pagination logic
(they are carried through and displayed only), so ranked result lists are
modelled polymorphically as `List (α × Nat)` of (score, metadata index)
pairs, exactly as built on line 85 of the source.
-/

/-- One metadata record (`metadata.json` holds a JSON array of objects).
Fields may be absent on malformed records, hence `Option`.
`species_mentions` is a JSON object; the program only ever consults its key
set (`in` tests on line 97, `.keys()` on lines 61 and 126), so it is
modelled by its list of keys. Fields the retrieval core never reads
(emotion predictions, mention counts) are omitted. -/
structure StoryRecord where
  filename : Option String
  culture : Option String
  continent : Option String
  species_mentions : Option (List String)
deriving DecidableEq

/-- Configuration constant `RESULTS_PER_PAGE = 10` (line 15). -/
def RESULTS_PER_PAGE : Nat := 10

/-- Configuration constant `MAX_PAGES = 50` (line 16). -/
def MAX_PAGES : Nat := 50

/-- The creature-filter membership test of line 97:
`"species_mentions" not in story or selected_creature not in story["species_mentions"]`
causes a skip; the story passes when the field is present and the selected
creature is one of its keys. -/
def hasCreature (story : StoryRecord) (selected_creature : String) : Bool :=
  match story.species_mentions with
  | none => false
  | some keys => keys.contains selected_creature

/-- The keep-condition of the filter loop body (lines 92-98): a story is
kept exactly when none of the three `continue` branches fires. `Option`
equality `story.continent == some sel` mirrors Python's
`story.get("continent") == sel`, where a missing field yields `None` and
therefore never equals a selected string. -/
def keepStory (selected_continent selected_culture selected_creature : String)
    (story : StoryRecord) : Bool :=
  (selected_continent == "All" || story.continent == some selected_continent) &&
  (selected_culture == "All" || story.culture == some selected_culture) &&
  (selected_creature == "All" || hasCreature story selected_creature)

/-- Keep-condition lifted to a metadata index (`story = metadata[idx]`,
line 90). The ids produced by the index search always lie inside the
metadata when index and metadata are aligned; the out-of-range branch
(where Python would raise IndexError) is never reached under the alignment
hypotheses used below. -/
def keepIdx (metadata : List StoryRecord)
    (selected_continent selected_culture selected_creature : String)
    (idx : Nat) : Bool :=
  match metadata[idx]? with
  | some story => keepStory selected_continent selected_culture selected_creature story
  | none => false

/-- The filter loop of lines 88-100: traverse `scored_items` in order and
append the pairs whose story passes all active filters. -/
def filtered_results (metadata : List StoryRecord)
    (selected_continent selected_culture selected_creature : String)
    (scored_items : List (α × Nat)) : List (α × Nat) :=
  scored_items.filter
    (fun p => keepIdx metadata selected_continent selected_culture selected_creature p.2)

/-- The nearest-neighbor search `index.search(q_vec, k)` modelled on its
output side: the index holds a total ranking of the corpus for the query
(all (score, row) pairs in descending relevance) and `search` returns its
first `k` entries. -/
def index_search (ranking : List (α × Nat)) (k : Nat) : List (α × Nat) :=
  ranking.take k

/-- Lines 84-85: the app always searches with `k = len(metadata)` and zips
scores with ids into the candidate list. -/
def scored_items (ranking : List (α × Nat)) (metadata : List StoryRecord) :
    List (α × Nat) :=
  index_search ranking metadata.length

/-- Line 103: `total_pages = min(MAX_PAGES, max(1, (total_results - 1) // RESULTS_PER_PAGE + 1))`,
with the constants generalized to parameters as in the spec's contract.
Python's `//` is floor division (at `total_results = 0` the dividend is
`-1`), modelled by `Int.fdiv`. -/
def total_pages (total_results page_size max_pages : Nat) : Int :=
  min (max_pages : Int) (max 1 (Int.fdiv ((total_results : Int) - 1) (page_size : Int) + 1))

/-- The spec's formula for the page count:
`min(max_pages, max(1, ceil(filtered_count / page_size)))`, with the
ceiling written as Nat arithmetic. -/
def total_pages_spec (total_results page_size max_pages : Nat) : Nat :=
  min max_pages (max 1 ((total_results + page_size - 1) / page_size))

/-- Lines 105-111: `start_idx = (current_page - 1) * RESULTS_PER_PAGE`,
`end_idx = start_idx + RESULTS_PER_PAGE`, and the rendered page is the
slice `filtered_results[start_idx:end_idx]`. A Python slice with
nonnegative bounds never raises; past-the-end bounds yield a short or
empty list, exactly as `drop`/`take` do. -/
def page_slice (filtered : List (α × Nat)) (page_number page_size : Nat) :
    List (α × Nat) :=
  (filtered.drop ((page_number - 1) * page_size)).take page_size

/-- The per-session pagination state: `st.session_state.current_page`
together with the page count of the currently rendered result set
(recomputed on line 103 at every rerun and passed to `go_next`). -/
structure AppState where
  current_page : Int
  total_pages : Int
deriving DecidableEq

/-- Session start (lines 71-72): `current_page` is set to 1 only when it is
not yet present in the session state. -/
def init_state (tp : Int) : AppState := ⟨1, tp⟩

/-- User actions that mutate or recompute pagination state: editing the
query or a filter selection triggers a rerun that recomputes
`total_pages` from the new filtered count (line 103), and the two buttons
call `go_next` / `go_prev` (lines 74-80). -/
inductive UserAction where
  | changeQuery (filtered_count : Nat)
  | next
  | prev
deriving DecidableEq

/-- One user action applied to the session state. A query or filter change
recomputes `total_pages` but writes nothing to `current_page` (the source
initializes `current_page` only when absent, lines 71-72, and no other
line assigns it outside the two button callbacks). `go_next` (lines 74-76)
increments only below `total_pages`; `go_prev` (lines 78-80) decrements
only above 1. -/
def step (s : AppState) (a : UserAction) : AppState :=
  match a with
  | .changeQuery c => ⟨s.current_page, total_pages c RESULTS_PER_PAGE MAX_PAGES⟩
  | .next => if s.current_page < s.total_pages then ⟨s.current_page + 1, s.total_pages⟩ else s
  | .prev => if 1 < s.current_page then ⟨s.current_page - 1, s.total_pages⟩ else s

/-- A session: the initial render followed by a sequence of user actions. -/
def run (s : AppState) (actions : List UserAction) : AppState :=
  actions.foldl step s

/-- The persisted FAISS index as far as the loader observes it: a row count
(`ntotal`) and an embedding dimension (`d`). -/
structure FaissIndex where
  ntotal : Nat
  d : Nat
deriving DecidableEq

/-- `load_index` (lines 26-42) on its fallible inputs: each argument is
`none` when the corresponding file is missing or fails to download/parse
(in which case the exception propagates and initialization fails), and
`some v` when it parses to `v`. After both files are read the function
returns them directly: no comparison of `index.ntotal` with
`len(metadata)` appears anywhere between line 38 and line 42. -/
def load_index (index_file : Option FaissIndex)
    (metadata_file : Option (List StoryRecord)) :
    Option (FaissIndex × List StoryRecord) :=
  match index_file, metadata_file with
  | some index, some metadata => some (index, metadata)
  | _, _ => none

/-- Python's `sorted(set(...))` (lines 59-61): the distinct elements of a
list, in ascending order, modelled via `Finset.sort`. -/
def sortedDistinct (l : List String) : List String :=
  l.toFinset.sort (· ≤ ·)

/-- Line 59: `sorted({m["continent"] for m in metadata if "continent" in m})`. -/
def all_continents (metadata : List StoryRecord) : List String :=
  sortedDistinct (metadata.filterMap (fun m => m.continent))

/-- Line 60: `sorted({m["culture"] for m in metadata if "culture" in m})`. -/
def all_cultures (metadata : List StoryRecord) : List String :=
  sortedDistinct (metadata.filterMap (fun m => m.culture))

/-- Line 61: `sorted({sp for m in metadata if "species_mentions" in m for sp in m["species_mentions"].keys()})`. -/
def all_species (metadata : List StoryRecord) : List String :=
  sortedDistinct (metadata.flatMap (fun m => m.species_mentions.getD []))

/-- The spec's description of the keep-condition (section 4.2), written as
a proposition to compare with the code's `keepStory`. -/
def KeepSpec (selected_continent selected_culture selected_creature : String)
    (story : StoryRecord) : Prop :=
  (selected_continent = "All" ∨ story.continent = some selected_continent) ∧
  (selected_culture = "All" ∨ story.culture = some selected_culture) ∧
  (selected_creature = "All" ∨
    ∃ keys, story.species_mentions = some keys ∧ selected_creature ∈ keys)

/-! Concrete records used by the witnesses below. -/

/-- A well-formed record: every optional field present. -/
def storyA : StoryRecord :=
  ⟨some "a.txt", some "Greek", some "Europe", some ["dragon", "fox"]⟩

/-- A malformed record: continent and species_mentions absent. -/
def storyB : StoryRecord :=
  ⟨some "b.txt", some "Norse", none, none⟩

/-- A two-record corpus. -/
def mdTest : List StoryRecord := [storyA, storyB]

/-- A three-record corpus. -/
def mdThree : List StoryRecord := [storyA, storyB, storyA]

/-! Helper lemmas shared by the claim theorems. -/

lemma hasCreature_eq_true_iff (story : StoryRecord) (cr : String) :
    hasCreature story cr = true ↔
      ∃ keys, story.species_mentions = some keys ∧ cr ∈ keys := by
  cases h : story.species_mentions <;> simp [hasCreature, h]

lemma keepStory_eq_true_iff (sc su cr : String) (story : StoryRecord) :
    keepStory sc su cr story = true ↔ KeepSpec sc su cr story := by
  simp [keepStory, KeepSpec, hasCreature_eq_true_iff, Bool.and_eq_true,
    Bool.or_eq_true, beq_iff_eq, and_assoc]

lemma total_pages_eq_spec (c s mp : Nat) (hs : 1 ≤ s) :
    total_pages c s mp = (total_pages_spec c s mp : Int) := by
  have hs0 : (0 : Int) < (s : Int) := by exact_mod_cast hs
  unfold total_pages total_pages_spec
  rcases Nat.eq_zero_or_pos c with hc | hc
  · subst hc
    have h1 : ((0 : Nat) : Int) - 1 = -1 := by norm_num
    have h2 : Int.fdiv (-1) (s : Int) = -1 := by
      rw [Int.fdiv_eq_ediv _ (le_of_lt hs0)]
      exact ((Int.ediv_emod_unique (q := -1) (r := (s : Int) - 1) hs0).mpr
        ⟨by omega, by omega, by omega⟩).1
    have hd : (0 + s - 1) / s = 0 := Nat.div_eq_of_lt (by omega)
    rw [h1, h2, hd]
    push_cast
    omega
  · have h1 : ((c : Int) - 1) = ((c - 1 : Nat) : Int) := by omega
    have h2 : Int.fdiv ((c - 1 : Nat) : Int) (s : Int) = (((c - 1) / s : Nat) : Int) := by
      rw [Int.fdiv_eq_ediv _ (le_of_lt hs0)]
      exact (Int.natCast_div _ _).symm
    have hd : (c + s - 1) / s = (c - 1) / s + 1 := by
      have he : c + s - 1 = (c - 1) + 1 * s := by omega
      rw [he, Nat.add_mul_div_right _ _ (by omega)]
    rw [h1, h2, hd]
    generalize (c - 1) / s = q
    push_cast
    omega

lemma mem_sortedDistinct (l : List String) (s : String) :
    s ∈ sortedDistinct l ↔ s ∈ l := by
  simp [sortedDistinct, Finset.mem_sort, List.mem_toFinset]

lemma sortedDistinct_nodup (l : List String) : (sortedDistinct l).Nodup :=
  Finset.sort_nodup _ _

lemma sortedDistinct_sorted (l : List String) : (sortedDistinct l).Sorted (· ≤ ·) :=
  Finset.sort_sorted _ _

lemma mem_getD_nil (o : Option (List String)) (s : String) :
    s ∈ o.getD [] ↔ ∃ keys, o = some keys ∧ s ∈ keys := by
  cases o <;> simp

/-! The claim theorems. -/

/-- C1: a ranked candidate with a valid id survives the filter step exactly
when it was among the candidates and all active filters match
conjunctively: an active continent (resp. culture) filter requires the
field present and equal, an active creature filter requires
species_mentions present with the selected creature among its keys, and a
dimension set to "All" imposes no constraint; missing optional fields make
the record a non-match rather than an error. -/
theorem filter_keeps_iff (metadata : List StoryRecord) (sc su cr : String)
    (scored : List (α × Nat)) (score : α) (idx : Nat) (h : idx < metadata.length) :
    (score, idx) ∈ filtered_results metadata sc su cr scored ↔
      ((score, idx) ∈ scored ∧ KeepSpec sc su cr (metadata.get ⟨idx, h⟩)) := by
  simp [filtered_results, List.mem_filter, keepIdx,
    List.getElem?_eq_getElem h, keepStory_eq_true_iff]

/-- Witness for C1 at a concrete corpus: index 0 of a two-record corpus
with the continent filter "Europe" and the creature filter "dragon". -/
theorem filter_keeps_iff_witness :
    0 < mdTest.length ∧
    (((0 : Int), 0) ∈
        filtered_results mdTest "Europe" "All" "dragon" [((0 : Int), 0), ((1 : Int), 1)] ↔
      (((0 : Int), 0) ∈ [((0 : Int), 0), ((1 : Int), 1)] ∧
        KeepSpec "Europe" "All" "dragon" (mdTest.get ⟨0, by decide⟩))) :=
  ⟨by decide,
    filter_keeps_iff mdTest "Europe" "All" "dragon"
      [((0 : Int), 0), ((1 : Int), 1)] (0 : Int) 0 (by decide)⟩

/-- C2: the filter step is a `List.filter` over the ranked candidates, so
the filtered list is a subsequence of the unfiltered ranked list,
preserving the relative order of the surviving (score, id) pairs. -/
theorem filtered_results_sublist (metadata : List StoryRecord)
    (sc su cr : String) (scored : List (α × Nat)) :
    (filtered_results metadata sc su cr scored).Sublist scored :=
  List.filter_sublist scored

/-- C3: the code's page-count expression
`min(MAX_PAGES, max(1, (count - 1) // page_size + 1))` equals the spec's
`min(max_pages, max(1, ceil(count / page_size)))`; it never exceeds
max_pages, and it is 1 when the filtered count is 0. -/
theorem total_pages_formula (c s mp : Nat) (hs : 1 ≤ s) (hmp : 1 ≤ mp) :
    total_pages c s mp = (total_pages_spec c s mp : Int) ∧
    total_pages c s mp ≤ (mp : Int) ∧
    (c = 0 → total_pages c s mp = 1) := by
  refine ⟨total_pages_eq_spec c s mp hs, min_le_left _ _, ?_⟩
  rintro rfl
  rw [total_pages_eq_spec 0 s mp hs]
  unfold total_pages_spec
  rw [Nat.div_eq_of_lt (show 0 + s - 1 < s by omega)]
  push_cast
  omega

/-- Witness for C3 at the code's constants: 25 filtered results, pages of
10, cap 50. -/
theorem total_pages_formula_witness :
    1 ≤ 10 ∧ 1 ≤ 50 ∧
    total_pages 25 10 50 = (total_pages_spec 25 10 50 : Int) ∧
    total_pages 25 10 50 ≤ (50 : Int) ∧
    total_pages 0 10 50 = 1 :=
  ⟨by decide, by decide,
    (total_pages_formula 25 10 50 (by decide) (by decide)).1,
    (total_pages_formula 25 10 50 (by decide) (by decide)).2.1,
    (total_pages_formula 0 10 50 (by decide) (by decide)).2.2 rfl⟩

/-- C4 (refuted by the code): a rerun triggered by editing the query text
or a filter selection recomputes total_pages but never writes
current_page, because the source assigns `st.session_state.current_page`
only when the key is absent (lines 71-72) and inside the two button
callbacks; a session sitting on page 3 therefore renders page 3 of the new
result set, not page 1. -/
theorem change_query_keeps_current_page (s : AppState) (c : Nat) :
    (step s (UserAction.changeQuery c)).current_page = s.current_page := rfl

/-- C5 (refuted by the code): a reachable session state violates the
clamping invariant. Starting a fresh session on a query with 45 matches
(total_pages = 5), pressing Next twice, then switching to a filter with 0
matches (total_pages = 1) leaves current_page = 3 > total_pages = 1: no
operation clamps current_page downward. -/
theorem reachable_page_exceeds_total_pages :
    run (init_state (total_pages 45 RESULTS_PER_PAGE MAX_PAGES))
        [UserAction.next, UserAction.next, UserAction.changeQuery 0] =
      (⟨3, 1⟩ : AppState) ∧
    ¬ ((⟨3, 1⟩ : AppState).current_page ≤ (⟨3, 1⟩ : AppState).total_pages) := by
  decide

/-- C6: the app always calls the index with k equal to the corpus size
(line 84), so the candidate pool is the entire ranking and every story
that passes the active filters appears in the filtered results — filtering
can never starve a match further down the ranking. -/
theorem full_corpus_search_no_starvation (metadata : List StoryRecord)
    (sc su cr : String) (ranking : List (α × Nat))
    (hperm : (ranking.map Prod.snd).Perm (List.range metadata.length)) :
    scored_items ranking metadata = ranking ∧
    ∀ idx : Nat, idx < metadata.length →
      keepIdx metadata sc su cr idx = true →
      ∃ score, (score, idx) ∈
        filtered_results metadata sc su cr (scored_items ranking metadata) := by
  have hlen : ranking.length = metadata.length := by
    have h := hperm.length_eq
    simpa using h
  have htake : scored_items ranking metadata = ranking := by
    unfold scored_items index_search
    rw [← hlen, List.take_length]
  refine ⟨htake, ?_⟩
  intro idx hidx hkeep
  have hmem : idx ∈ ranking.map Prod.snd :=
    hperm.mem_iff.mpr (List.mem_range.mpr hidx)
  obtain ⟨p, hp, hsnd⟩ := List.mem_map.mp hmem
  obtain ⟨sc0, i0⟩ := p
  cases hsnd
  refine ⟨sc0, ?_⟩
  rw [htake]
  exact List.mem_filter.mpr ⟨hp, hkeep⟩

/-- Witness for C6: a two-record corpus fully ranked as [(5, 1), (7, 0)];
the search pool is the whole ranking. -/
theorem full_corpus_search_no_starvation_witness :
    (([((5 : Int), 1), ((7 : Int), 0)].map Prod.snd).Perm
        (List.range mdTest.length)) ∧
    scored_items [((5 : Int), 1), ((7 : Int), 0)] mdTest =
      [((5 : Int), 1), ((7 : Int), 0)] :=
  ⟨by decide,
    (full_corpus_search_no_starvation mdTest "All" "All" "All"
      [((5 : Int), 1), ((7 : Int), 0)] (by decide)).1⟩

/-- C7: the rendered page is the slice at offset (page_number - 1) *
page_size; it has at most page_size elements, its i-th element is the
(offset + i)-th filtered result, it is empty once the offset reaches the
end of the list, and the slice is a total function (Python slicing never
raises on out-of-range bounds). -/
theorem page_slice_spec (filtered : List (α × Nat)) (n s : Nat)
    (_hn : 1 ≤ n) (_hs : 1 ≤ s) :
    (page_slice filtered n s).length ≤ s ∧
    (∀ i : Nat, i < s →
      (page_slice filtered n s)[i]? = filtered[(n - 1) * s + i]?) ∧
    (filtered.length ≤ (n - 1) * s → page_slice filtered n s = []) := by
  refine ⟨List.length_take_le _ _, ?_, ?_⟩
  · intro i hi
    unfold page_slice
    rw [List.getElem?_take_of_lt hi, List.getElem?_drop]
  · intro h
    unfold page_slice
    rw [List.drop_eq_nil_iff.mpr h, List.take_nil]

/-- Witness for C7: page 2 with page size 1 of a two-element filtered
list holds its single element, the second filtered result. -/
theorem page_slice_spec_witness :
    (page_slice [((9 : Int), 0), ((8 : Int), 1)] 2 1).length ≤ 1 ∧
    (page_slice [((9 : Int), 0), ((8 : Int), 1)] 2 1)[0]? =
      [((9 : Int), 0), ((8 : Int), 1)][(2 - 1) * 1 + 0]? :=
  ⟨(page_slice_spec [((9 : Int), 0), ((8 : Int), 1)] 2 1 (by decide) (by decide)).1,
    (page_slice_spec [((9 : Int), 0), ((8 : Int), 1)] 2 1 (by decide) (by decide)).2.1
      0 (by decide)⟩

/-- C8: Next increments current_page exactly when current_page <
total_pages and Previous decrements exactly when 1 < current_page; at the
boundaries both callbacks leave the session state unchanged. -/
theorem next_prev_boundary (s : AppState) :
    (s.current_page < s.total_pages →
      step s UserAction.next = ⟨s.current_page + 1, s.total_pages⟩) ∧
    (¬ s.current_page < s.total_pages → step s UserAction.next = s) ∧
    (1 < s.current_page →
      step s UserAction.prev = ⟨s.current_page - 1, s.total_pages⟩) ∧
    (¬ 1 < s.current_page → step s UserAction.prev = s) := by
  refine ⟨?_, ?_, ?_, ?_⟩ <;> intro h <;> simp [step, h]

/-- Witness for C8: from page 2 of 5, Next reaches page 3 and Previous
reaches page 1; from page 1 of 1, both are no-ops. -/
theorem next_prev_boundary_witness :
    step (⟨2, 5⟩ : AppState) UserAction.next = (⟨3, 5⟩ : AppState) ∧
    step (⟨2, 5⟩ : AppState) UserAction.prev = (⟨1, 5⟩ : AppState) ∧
    step (⟨1, 1⟩ : AppState) UserAction.next = (⟨1, 1⟩ : AppState) ∧
    step (⟨1, 1⟩ : AppState) UserAction.prev = (⟨1, 1⟩ : AppState) :=
  ⟨(next_prev_boundary ⟨2, 5⟩).1 (by decide),
    (next_prev_boundary ⟨2, 5⟩).2.2.1 (by decide),
    (next_prev_boundary ⟨1, 1⟩).2.1 (by decide),
    (next_prev_boundary ⟨1, 1⟩).2.2.2 (by decide)⟩

/-- C9 (refuted by the code): load_index returns successfully even when
the index row count (here 5) differs from the metadata record count (here
3); no cardinality comparison appears between reading the two files and
returning them. -/
theorem load_index_accepts_mismatch :
    load_index (some ⟨5, 384⟩) (some mdThree) = some (⟨5, 384⟩, mdThree) ∧
    (5 : Nat) ≠ mdThree.length :=
  ⟨rfl, by decide⟩

/-- C10: each filter dimension's option list contains exactly the distinct
values present across records having that field (for creatures, the union
of species_mentions key sets), without duplicates and sorted ascending;
records missing the field contribute nothing. -/
theorem filter_options_spec (metadata : List StoryRecord) :
    ((∀ s, s ∈ all_continents metadata ↔
        ∃ m, m ∈ metadata ∧ m.continent = some s) ∧
      (all_continents metadata).Nodup ∧
      (all_continents metadata).Sorted (· ≤ ·)) ∧
    ((∀ s, s ∈ all_cultures metadata ↔
        ∃ m, m ∈ metadata ∧ m.culture = some s) ∧
      (all_cultures metadata).Nodup ∧
      (all_cultures metadata).Sorted (· ≤ ·)) ∧
    ((∀ s, s ∈ all_species metadata ↔
        ∃ m, m ∈ metadata ∧ ∃ keys, m.species_mentions = some keys ∧ s ∈ keys) ∧
      (all_species metadata).Nodup ∧
      (all_species metadata).Sorted (· ≤ ·)) := by
  refine ⟨⟨?_, sortedDistinct_nodup _, sortedDistinct_sorted _⟩,
    ⟨?_, sortedDistinct_nodup _, sortedDistinct_sorted _⟩,
    ⟨?_, sortedDistinct_nodup _, sortedDistinct_sorted _⟩⟩
  · intro s
    simp [all_continents, mem_sortedDistinct, List.mem_filterMap]
  · intro s
    simp [all_cultures, mem_sortedDistinct, List.mem_filterMap]
  · intro s
    simp [all_species, mem_sortedDistinct, List.mem_flatMap, mem_getD_nil]
